import Mathlib

/-!
Verification of the error classification and translation layer of
`meilisearch-types/src/error.rs`: the code catalog (`Code::err_code`),
the envelope builder (`ResponseError::from_msg`), and the classification
bridge (`ErrorCode` implementations for `io::Error`, `HeedError`,
`milli::Error`).  Rust enumerations become Lean inductives, HTTP status
codes become naturals, and the catalog match is transcribed arm by arm.
-/

namespace Meilisearch

/- HTTP status codes used by the catalog, as naturals
(`actix_web::http::StatusCode` constants). -/
namespace StatusCode

def OK : Nat := 200
def BAD_REQUEST : Nat := 400
def UNAUTHORIZED : Nat := 401
def FORBIDDEN : Nat := 403
def NOT_FOUND : Nat := 404
def CONFLICT : Nat := 409
def PAYLOAD_TOO_LARGE : Nat := 413
def UNSUPPORTED_MEDIA_TYPE : Nat := 415
def UNPROCESSABLE_ENTITY : Nat := 422
def INTERNAL_SERVER_ERROR : Nat := 500

end StatusCode

/-- `ErrorType`: the three broad categories of errors. -/
inductive ErrorType
  | InternalError
  | InvalidRequestError
  | AuthenticationError
  deriving DecidableEq, Repr

/-- `fmt::Display for ErrorType`: the wire name of each category. -/
def ErrorType.display : ErrorType → String
  | .InternalError => "internal"
  | .InvalidRequestError => "invalid_request"
  | .AuthenticationError => "auth"

/-- The `Code` enumeration: every canonical error code, in source order. -/
inductive Code
  | IoError
  | NoSpaceLeftOnDevice
  | TooManyOpenFiles
  | CreateIndex
  | IndexAlreadyExists
  | IndexNotFound
  | InvalidIndexUid
  | InvalidMinWordLengthForTypo
  | DuplicateIndexFound
  | InvalidState
  | MissingPrimaryKey
  | PrimaryKeyAlreadyPresent
  | MaxFieldsLimitExceeded
  | MissingDocumentId
  | InvalidDocumentId
  | Filter
  | Sort
  | BadParameter
  | BadRequest
  | DatabaseSizeLimitReached
  | DocumentNotFound
  | Internal
  | InvalidGeoField
  | InvalidRankingRule
  | InvalidStore
  | InvalidToken
  | MissingAuthorizationHeader
  | MissingMasterKey
  | DumpNotFound
  | InvalidTaskDateFilter
  | InvalidTaskStatusesFilter
  | InvalidTaskTypesFilter
  | InvalidTaskCanceledByFilter
  | InvalidTaskUidsFilter
  | TaskNotFound
  | TaskDeletionWithEmptyQuery
  | TaskCancelationWithEmptyQuery
  | PayloadTooLarge
  | RetrieveDocument
  | SearchDocuments
  | UnsupportedMediaType
  | DumpAlreadyInProgress
  | DumpProcessFailed
  | UnretrievableErrorCode
  | InvalidContentType
  | MissingContentType
  | MalformedPayload
  | MissingPayload
  | ApiKeyNotFound
  | MissingParameter
  | InvalidApiKeyActions
  | InvalidApiKeyIndexes
  | InvalidApiKeyExpiresAt
  | InvalidApiKeyDescription
  | InvalidApiKeyName
  | InvalidApiKeyUid
  | ImmutableField
  | ApiKeyAlreadyExists
  deriving DecidableEq, Repr, Fintype

/-- `ErrCode`: one catalog record (HTTP status, category, stable name). -/
structure ErrCode where
  status_code : Nat
  error_type : ErrorType
  error_name : String
  deriving DecidableEq, Repr

/-- `ErrCode::authentication` -/
def ErrCode.authentication (error_name : String) (status_code : Nat) : ErrCode :=
  { status_code := status_code, error_name := error_name,
    error_type := ErrorType.AuthenticationError }

/-- `ErrCode::internal` -/
def ErrCode.internal (error_name : String) (status_code : Nat) : ErrCode :=
  { status_code := status_code, error_name := error_name,
    error_type := ErrorType.InternalError }

/-- `ErrCode::invalid` -/
def ErrCode.invalid (error_name : String) (status_code : Nat) : ErrCode :=
  { status_code := status_code, error_name := error_name,
    error_type := ErrorType.InvalidRequestError }

/-- `Code::err_code`: the catalog, transcribed arm by arm from the source. -/
def Code.err_code : Code → ErrCode
  | .IoError => ErrCode.invalid "io_error" StatusCode.UNPROCESSABLE_ENTITY
  | .TooManyOpenFiles =>
      ErrCode.invalid "too_many_open_files" StatusCode.UNPROCESSABLE_ENTITY
  | .NoSpaceLeftOnDevice =>
      ErrCode.invalid "no_space_left_on_device" StatusCode.UNPROCESSABLE_ENTITY
  | .CreateIndex =>
      ErrCode.internal "index_creation_failed" StatusCode.INTERNAL_SERVER_ERROR
  | .IndexAlreadyExists => ErrCode.invalid "index_already_exists" StatusCode.CONFLICT
  | .IndexNotFound => ErrCode.invalid "index_not_found" StatusCode.NOT_FOUND
  | .InvalidIndexUid => ErrCode.invalid "invalid_index_uid" StatusCode.BAD_REQUEST
  | .InvalidState => ErrCode.internal "invalid_state" StatusCode.INTERNAL_SERVER_ERROR
  | .MissingPrimaryKey =>
      ErrCode.invalid "primary_key_inference_failed" StatusCode.BAD_REQUEST
  | .PrimaryKeyAlreadyPresent =>
      ErrCode.invalid "index_primary_key_already_exists" StatusCode.BAD_REQUEST
  | .InvalidRankingRule => ErrCode.invalid "invalid_ranking_rule" StatusCode.BAD_REQUEST
  | .InvalidStore =>
      ErrCode.internal "invalid_store_file" StatusCode.INTERNAL_SERVER_ERROR
  | .MaxFieldsLimitExceeded =>
      ErrCode.invalid "max_fields_limit_exceeded" StatusCode.BAD_REQUEST
  | .MissingDocumentId => ErrCode.invalid "missing_document_id" StatusCode.BAD_REQUEST
  | .InvalidDocumentId => ErrCode.invalid "invalid_document_id" StatusCode.BAD_REQUEST
  | .Filter => ErrCode.invalid "invalid_filter" StatusCode.BAD_REQUEST
  | .Sort => ErrCode.invalid "invalid_sort" StatusCode.BAD_REQUEST
  | .BadParameter => ErrCode.invalid "bad_parameter" StatusCode.BAD_REQUEST
  | .BadRequest => ErrCode.invalid "bad_request" StatusCode.BAD_REQUEST
  | .DatabaseSizeLimitReached =>
      ErrCode.internal "database_size_limit_reached" StatusCode.INTERNAL_SERVER_ERROR
  | .DocumentNotFound => ErrCode.invalid "document_not_found" StatusCode.NOT_FOUND
  | .Internal => ErrCode.internal "internal" StatusCode.INTERNAL_SERVER_ERROR
  | .InvalidGeoField => ErrCode.invalid "invalid_geo_field" StatusCode.BAD_REQUEST
  | .InvalidToken => ErrCode.authentication "invalid_api_key" StatusCode.FORBIDDEN
  | .MissingAuthorizationHeader =>
      ErrCode.authentication "missing_authorization_header" StatusCode.UNAUTHORIZED
  | .MissingMasterKey =>
      ErrCode.authentication "missing_master_key" StatusCode.UNAUTHORIZED
  | .InvalidTaskDateFilter =>
      ErrCode.invalid "invalid_task_date_filter" StatusCode.BAD_REQUEST
  | .InvalidTaskUidsFilter =>
      ErrCode.invalid "invalid_task_uids_filter" StatusCode.BAD_REQUEST
  | .InvalidTaskStatusesFilter =>
      ErrCode.invalid "invalid_task_statuses_filter" StatusCode.BAD_REQUEST
  | .InvalidTaskTypesFilter =>
      ErrCode.invalid "invalid_task_types_filter" StatusCode.BAD_REQUEST
  | .InvalidTaskCanceledByFilter =>
      ErrCode.invalid "invalid_task_canceled_by_filter" StatusCode.BAD_REQUEST
  | .TaskNotFound => ErrCode.invalid "task_not_found" StatusCode.NOT_FOUND
  | .TaskDeletionWithEmptyQuery =>
      ErrCode.invalid "missing_task_filters" StatusCode.BAD_REQUEST
  | .TaskCancelationWithEmptyQuery =>
      ErrCode.invalid "missing_task_filters" StatusCode.BAD_REQUEST
  | .DumpNotFound => ErrCode.invalid "dump_not_found" StatusCode.NOT_FOUND
  | .PayloadTooLarge =>
      ErrCode.invalid "payload_too_large" StatusCode.PAYLOAD_TOO_LARGE
  | .RetrieveDocument =>
      ErrCode.internal "unretrievable_document" StatusCode.BAD_REQUEST
  | .SearchDocuments => ErrCode.internal "search_error" StatusCode.BAD_REQUEST
  | .UnsupportedMediaType =>
      ErrCode.invalid "unsupported_media_type" StatusCode.UNSUPPORTED_MEDIA_TYPE
  | .DumpAlreadyInProgress =>
      ErrCode.invalid "dump_already_processing" StatusCode.CONFLICT
  | .DumpProcessFailed =>
      ErrCode.internal "dump_process_failed" StatusCode.INTERNAL_SERVER_ERROR
  | .MissingContentType =>
      ErrCode.invalid "missing_content_type" StatusCode.UNSUPPORTED_MEDIA_TYPE
  | .MalformedPayload => ErrCode.invalid "malformed_payload" StatusCode.BAD_REQUEST
  | .InvalidContentType =>
      ErrCode.invalid "invalid_content_type" StatusCode.UNSUPPORTED_MEDIA_TYPE
  | .MissingPayload => ErrCode.invalid "missing_payload" StatusCode.BAD_REQUEST
  | .UnretrievableErrorCode =>
      ErrCode.invalid "unretrievable_error_code" StatusCode.BAD_REQUEST
  | .ApiKeyNotFound => ErrCode.invalid "api_key_not_found" StatusCode.NOT_FOUND
  | .MissingParameter => ErrCode.invalid "missing_parameter" StatusCode.BAD_REQUEST
  | .InvalidApiKeyActions =>
      ErrCode.invalid "invalid_api_key_actions" StatusCode.BAD_REQUEST
  | .InvalidApiKeyIndexes =>
      ErrCode.invalid "invalid_api_key_indexes" StatusCode.BAD_REQUEST
  | .InvalidApiKeyExpiresAt =>
      ErrCode.invalid "invalid_api_key_expires_at" StatusCode.BAD_REQUEST
  | .InvalidApiKeyDescription =>
      ErrCode.invalid "invalid_api_key_description" StatusCode.BAD_REQUEST
  | .InvalidApiKeyName => ErrCode.invalid "invalid_api_key_name" StatusCode.BAD_REQUEST
  | .InvalidApiKeyUid => ErrCode.invalid "invalid_api_key_uid" StatusCode.BAD_REQUEST
  | .ApiKeyAlreadyExists => ErrCode.invalid "api_key_already_exists" StatusCode.CONFLICT
  | .ImmutableField => ErrCode.invalid "immutable_field" StatusCode.BAD_REQUEST
  | .InvalidMinWordLengthForTypo =>
      ErrCode.invalid "invalid_min_word_length_for_typo" StatusCode.BAD_REQUEST
  | .DuplicateIndexFound =>
      ErrCode.invalid "duplicate_index_found" StatusCode.BAD_REQUEST

/-- `Code::http`: the HTTP status associated with a code. -/
def Code.http (c : Code) : Nat := c.err_code.status_code

/-- `Code::name`: the stable wire name of a code. -/
def Code.name (c : Code) : String := c.err_code.error_name

/-- `Code::type_`: the wire name of the code's category. -/
def Code.type_ (c : Code) : String := c.err_code.error_type.display

/-- `Code::url`: the documentation link of a code. -/
def Code.url (c : Code) : String :=
  "https://docs.meilisearch.com/errors#" ++ c.name

/-- `ResponseError`: the client-facing envelope. The `code` field is the
HTTP status, marked `#[serde(skip)]` in the source; the other fields are
serialized under the wire keys `message`, `code`, `type`, `link`. -/
structure ResponseError where
  code : Nat
  message : String
  error_code : String
  error_type : String
  error_link : String
  deriving DecidableEq, Repr

/-- `ResponseError::from_msg`: build the envelope from a message and a
code, appending the hint sentence when the code is `IoError`. -/
def ResponseError.from_msg (message : String) (code : Code) : ResponseError :=
  let message :=
    if code = Code.IoError then
      message ++ ". This error generally happens when you have no space left on device or when your database doesn't have read or write right."
    else
      message
  { code := code.http
    message := message
    error_code := code.err_code.error_name
    error_type := code.type_
    error_link := code.url }

/-- `std::io::Error`, reduced to the only part the classification inspects:
`raw_os_error()`, which returns an optional OS error number. -/
structure IoErr where
  raw_os_error : Option Int
  deriving DecidableEq, Repr

/-- `impl ErrorCode for io::Error`: classification by raw OS error number. -/
def IoErr.error_code (e : IoErr) : Code :=
  match e.raw_os_error with
  | some 5 => Code.IoError
  | some 24 => Code.TooManyOpenFiles
  | some 28 => Code.NoSpaceLeftOnDevice
  | _ => Code.Internal

/-- `heed::MdbError` (external storage-engine crate): the LMDB error kinds.
The classification match in the source distinguishes only `MapFull` and
`Invalid`; every other kind falls into its `Mdb(_)` catch-all. -/
inductive MdbError
  | KeyExist
  | NotFound
  | PageNotFound
  | Corrupted
  | Panic
  | VersionMismatch
  | Invalid
  | MapFull
  | DbsFull
  | ReadersFull
  | TlsFull
  | TxnFull
  | CursorFull
  | PageFull
  | MapResized
  | Incompatible
  | BadRsLot
  | BadTxn
  | BadValSize
  | BadDbi
  | Other (n : Int)
  deriving DecidableEq, Repr

/-- `heed::Error` (`HeedError` in the source): storage-engine failures. -/
inductive HeedError
  | Io (e : IoErr)
  | Mdb (e : MdbError)
  | Encoding
  | Decoding
  | InvalidDatabaseTyping
  | DatabaseClosing
  | BadOpenOptions
  deriving DecidableEq, Repr

/-- `impl ErrorCode for HeedError`, transcribed arm by arm. -/
def HeedError.error_code : HeedError → Code
  | .Mdb .MapFull => Code.DatabaseSizeLimitReached
  | .Mdb .Invalid => Code.InvalidStore
  | .Io e => e.error_code
  | .Mdb _
  | .Encoding
  | .Decoding
  | .InvalidDatabaseTyping
  | .DatabaseClosing
  | .BadOpenOptions => Code.Internal

/-- `milli::UserError` (external search-engine crate): the
domain-validation failure variants matched by the classification. -/
inductive UserError
  | SerdeJson (msg : String)
  | InvalidLmdbOpenOptions
  | DocumentLimitReached
  | AccessingSoftDeletedDocument (document_id : Nat)
  | UnknownInternalDocumentId (document_id : Nat)
  | InvalidStoreFile
  | NoSpaceLeftOnDevice
  | MaxDatabaseSizeReached
  | AttributeLimitReached
  | InvalidFilter (msg : String)
  | MissingDocumentId (primary_key : String)
  | InvalidDocumentId (document_id : String)
  | TooManyDocumentIds (n : Nat)
  | MissingPrimaryKey
  | PrimaryKeyCannotBeChanged (primary_key : String)
  | SortRankingRuleMissing
  | InvalidFacetsDistribution (msg : String)
  | InvalidSortableAttribute (field : String)
  | CriterionError (msg : String)
  | InvalidGeoField (msg : String)
  | SortError (msg : String)
  | InvalidMinTypoWordLenSetting (one : Nat) (two : Nat)
  deriving DecidableEq, Repr

/-- `milli::Error` (external search-engine crate): top-level failures. -/
inductive MilliError
  | InternalError (msg : String)
  | IoError (e : IoErr)
  | UserError (e : UserError)
  deriving DecidableEq, Repr

/-- `impl ErrorCode for milli::Error`, transcribed arm by arm. -/
def MilliError.error_code : MilliError → Code
  | .InternalError _ => Code.Internal
  | .IoError e => e.error_code
  | .UserError e =>
    match e with
    | .SerdeJson _
    | .InvalidLmdbOpenOptions
    | .DocumentLimitReached
    | .AccessingSoftDeletedDocument _
    | .UnknownInternalDocumentId _ => Code.Internal
    | .InvalidStoreFile => Code.InvalidStore
    | .NoSpaceLeftOnDevice => Code.NoSpaceLeftOnDevice
    | .MaxDatabaseSizeReached => Code.DatabaseSizeLimitReached
    | .AttributeLimitReached => Code.MaxFieldsLimitExceeded
    | .InvalidFilter _ => Code.Filter
    | .MissingDocumentId _ => Code.MissingDocumentId
    | .InvalidDocumentId _
    | .TooManyDocumentIds _ => Code.InvalidDocumentId
    | .MissingPrimaryKey => Code.MissingPrimaryKey
    | .PrimaryKeyCannotBeChanged _ => Code.PrimaryKeyAlreadyPresent
    | .SortRankingRuleMissing => Code.Sort
    | .InvalidFacetsDistribution _ => Code.BadRequest
    | .InvalidSortableAttribute _ => Code.Sort
    | .CriterionError _ => Code.InvalidRankingRule
    | .InvalidGeoField _ => Code.InvalidGeoField
    | .SortError _ => Code.Sort
    | .InvalidMinTypoWordLenSetting _ _ => Code.InvalidMinWordLengthForTypo

/-- Serde serialization of `ResponseError` as string key-value pairs: the
derive emits the four non-skipped fields under their renamed wire keys, in
declaration order; the `code` field (HTTP status) is `#[serde(skip)]` and
never emitted. -/
def ResponseError.serialize (r : ResponseError) : List (String × String) :=
  [("message", r.message), ("code", r.error_code),
   ("type", r.error_type), ("link", r.error_link)]

/-- Serde deserialization of `ResponseError`: read the four wire fields;
the skipped `code` field is filled with `StatusCode::default()`, which is
`200 OK`. -/
def ResponseError.deserialize (body : List (String × String)) :
    Option ResponseError :=
  match body.lookup "message", body.lookup "code",
        body.lookup "type", body.lookup "link" with
  | some m, some c, some t, some l =>
      some { code := StatusCode.OK, message := m,
             error_code := c, error_type := t, error_link := l }
  | _, _, _, _ => none

/-- C1 (counterexample): building an envelope for `IoError` does not yield
`msg` followed by a single space and the hint sentence — the code inserts a
period before the space. -/
theorem C1_counterexample :
    ¬ ((ResponseError.from_msg "x" Code.IoError).message =
      "x" ++ " This error generally happens when you have no space left on device or when your database doesn't have read or write right.") := by
  decide

/-- C1 (amended): building an envelope with code `IoError` yields a message
equal to `msg` followed by a period, a space, and the hint sentence; for
every other code the message is `msg` unchanged. -/
theorem C1_message_augmentation (msg : String) (code : Code) :
    (ResponseError.from_msg msg code).message =
      if code = Code.IoError then
        msg ++ ". This error generally happens when you have no space left on device or when your database doesn't have read or write right."
      else
        msg := by
  by_cases h : code = Code.IoError <;> simp [ResponseError.from_msg, h]

/-- C2 (counterexample): the stable name is not injective —
`TaskDeletionWithEmptyQuery` and `TaskCancelationWithEmptyQuery` are
distinct codes sharing the name `missing_task_filters`. -/
theorem C2_counterexample :
    Code.TaskDeletionWithEmptyQuery ≠ Code.TaskCancelationWithEmptyQuery ∧
    Code.name Code.TaskDeletionWithEmptyQuery =
      Code.name Code.TaskCancelationWithEmptyQuery := by
  constructor
  · decide
  · rfl

/-- C2 (amended): the stable name is injective on the whole catalog except
for the single pair `TaskDeletionWithEmptyQuery` /
`TaskCancelationWithEmptyQuery`, which both carry `missing_task_filters`. -/
theorem C2_name_injective_except_task_filters :
    ∀ c1 c2 : Code, c1.name = c2.name →
      c1 = c2 ∨
      (c1 = Code.TaskDeletionWithEmptyQuery ∧
        c2 = Code.TaskCancelationWithEmptyQuery) ∨
      (c1 = Code.TaskCancelationWithEmptyQuery ∧
        c2 = Code.TaskDeletionWithEmptyQuery) := by
  set_option maxRecDepth 20000 in decide

/-- C2 (witness): the amended injectivity applied to the one exceptional
pair, whose names coincide. -/
theorem C2_name_injective_except_task_filters_witness :
    Code.TaskDeletionWithEmptyQuery = Code.TaskCancelationWithEmptyQuery ∨
    (Code.TaskDeletionWithEmptyQuery = Code.TaskDeletionWithEmptyQuery ∧
      Code.TaskCancelationWithEmptyQuery = Code.TaskCancelationWithEmptyQuery) ∨
    (Code.TaskDeletionWithEmptyQuery = Code.TaskCancelationWithEmptyQuery ∧
      Code.TaskCancelationWithEmptyQuery = Code.TaskDeletionWithEmptyQuery) :=
  C2_name_injective_except_task_filters
    Code.TaskDeletionWithEmptyQuery Code.TaskCancelationWithEmptyQuery rfl

/-- C3 (counterexample): errno 28 classifies to `NoSpaceLeftOnDevice` with
HTTP status 422, but the envelope built for that code does not end with the
disk-space hint sentence — the hint is appended only for `IoError`. -/
theorem C3_counterexample :
    IoErr.error_code { raw_os_error := some 28 } = Code.NoSpaceLeftOnDevice ∧
    Code.http Code.NoSpaceLeftOnDevice = 422 ∧
    ¬ ((ResponseError.from_msg "Database error" Code.NoSpaceLeftOnDevice).message.endsWith
        "This error generally happens when you have no space left on device or when your database doesn't have read or write right." = true) := by
  refine ⟨rfl, rfl, ?_⟩
  set_option maxRecDepth 20000 in decide

/-- C3 (amended): errno 28 classifies to `NoSpaceLeftOnDevice`, whose HTTP
status is 422; the envelope built for that code carries the message
unchanged (the hint sentence is appended only for `IoError`). -/
theorem C3_errno28_classification :
    IoErr.error_code { raw_os_error := some 28 } = Code.NoSpaceLeftOnDevice ∧
    Code.http Code.NoSpaceLeftOnDevice = 422 ∧
    ∀ msg : String,
      (ResponseError.from_msg msg Code.NoSpaceLeftOnDevice).message = msg :=
  ⟨rfl, rfl, fun _ => rfl⟩

/-- C4: OS-level I/O failures classify by raw OS error number: 5 is
`IoError`, 24 is `TooManyOpenFiles`, 28 is `NoSpaceLeftOnDevice`, and any
other number — or no number at all — is `Internal`. -/
theorem C4_io_classification (o : Option Int) :
    IoErr.error_code { raw_os_error := o } =
      if o = some 5 then Code.IoError
      else if o = some 24 then Code.TooManyOpenFiles
      else if o = some 28 then Code.NoSpaceLeftOnDevice
      else Code.Internal := by
  unfold IoErr.error_code
  split <;> simp_all

/-- C5: the six fixed wire mappings of the catalog: index not found,
database size limit reached, payload too large, invalid API key, missing
authorization header, and generic internal failure. -/
theorem C5_fixed_wire_mappings :
    (Code.name Code.IndexNotFound = "index_not_found" ∧
      Code.type_ Code.IndexNotFound = "invalid_request" ∧
      Code.http Code.IndexNotFound = 404) ∧
    (Code.name Code.DatabaseSizeLimitReached = "database_size_limit_reached" ∧
      Code.type_ Code.DatabaseSizeLimitReached = "internal" ∧
      Code.http Code.DatabaseSizeLimitReached = 500) ∧
    (Code.name Code.PayloadTooLarge = "payload_too_large" ∧
      Code.type_ Code.PayloadTooLarge = "invalid_request" ∧
      Code.http Code.PayloadTooLarge = 413) ∧
    (Code.name Code.InvalidToken = "invalid_api_key" ∧
      Code.type_ Code.InvalidToken = "auth" ∧
      Code.http Code.InvalidToken = 403) ∧
    (Code.name Code.MissingAuthorizationHeader = "missing_authorization_header" ∧
      Code.type_ Code.MissingAuthorizationHeader = "auth" ∧
      Code.http Code.MissingAuthorizationHeader = 401) ∧
    (Code.name Code.Internal = "internal" ∧
      Code.type_ Code.Internal = "internal" ∧
      Code.http Code.Internal = 500) := by
  decide

/-- C6: for every code, the documentation link is exactly
`https://docs.meilisearch.com/errors#` followed by the code's stable
name. -/
theorem C6_url_derivation (c : Code) :
    c.url = "https://docs.meilisearch.com/errors#" ++ c.name :=
  rfl

/-- C7: storage-engine failures classify as follows: map-full is
`DatabaseSizeLimitReached`, invalid-database is `InvalidStore`, an inner
I/O failure delegates to the OS-level errno rule, and every other storage
condition is `Internal`. -/
theorem C7_heed_classification :
    HeedError.error_code (.Mdb .MapFull) = Code.DatabaseSizeLimitReached ∧
    HeedError.error_code (.Mdb .Invalid) = Code.InvalidStore ∧
    (∀ e : IoErr, HeedError.error_code (.Io e) = e.error_code) ∧
    (∀ m : MdbError, m ≠ .MapFull → m ≠ .Invalid →
      HeedError.error_code (.Mdb m) = Code.Internal) ∧
    HeedError.error_code .Encoding = Code.Internal ∧
    HeedError.error_code .Decoding = Code.Internal ∧
    HeedError.error_code .InvalidDatabaseTyping = Code.Internal ∧
    HeedError.error_code .DatabaseClosing = Code.Internal ∧
    HeedError.error_code .BadOpenOptions = Code.Internal := by
  refine ⟨rfl, rfl, fun e => rfl, ?_, rfl, rfl, rfl, rfl, rfl⟩
  intro m h1 h2
  cases m <;> simp_all [HeedError.error_code]

/-- C7 (witness): the catch-all arm applied to the concrete MDB error
`Corrupted`, which is neither map-full nor invalid-database. -/
theorem C7_heed_classification_witness :
    HeedError.error_code (.Mdb .Corrupted) = Code.Internal :=
  C7_heed_classification.2.2.2.1 MdbError.Corrupted (by decide) (by decide)

/-- C8: domain-validation failures map to their specific codes — missing
primary key to `MissingPrimaryKey`, invalid filter to `Filter`, attribute
limit reached to `MaxFieldsLimitExceeded` — while malformed serialized
input, access to a soft-deleted document, and unknown internal document
identifiers all classify to `Internal`. -/
theorem C8_milli_validation_classification :
    MilliError.error_code (.UserError .MissingPrimaryKey) =
      Code.MissingPrimaryKey ∧
    (∀ msg, MilliError.error_code (.UserError (.InvalidFilter msg)) =
      Code.Filter) ∧
    MilliError.error_code (.UserError .AttributeLimitReached) =
      Code.MaxFieldsLimitExceeded ∧
    (∀ msg, MilliError.error_code (.UserError (.SerdeJson msg)) =
      Code.Internal) ∧
    (∀ d, MilliError.error_code (.UserError (.AccessingSoftDeletedDocument d)) =
      Code.Internal) ∧
    (∀ d, MilliError.error_code (.UserError (.UnknownInternalDocumentId d)) =
      Code.Internal) :=
  ⟨rfl, fun _ => rfl, rfl, fun _ => rfl, fun _ => rfl, fun _ => rfl⟩

/-- C9: serializing an envelope and deserializing the result preserves the
message, code, type, and link fields; the HTTP status never appears in the
serialized body — two envelopes differing only in status serialize
identically. -/
theorem C9_serialization_round_trip (r : ResponseError) :
    ResponseError.deserialize (ResponseError.serialize r) =
      some { code := StatusCode.OK, message := r.message,
             error_code := r.error_code, error_type := r.error_type,
             error_link := r.error_link } ∧
    ∀ status : Nat,
      ResponseError.serialize { r with code := status } =
        ResponseError.serialize r :=
  ⟨rfl, fun _ => rfl⟩

/-- C10: the three setup codes `IoError`, `TooManyOpenFiles`, and
`NoSpaceLeftOnDevice` all carry wire type `invalid_request` and HTTP
status 422. -/
theorem C10_setup_codes_invalid_422 :
    Code.type_ Code.IoError = "invalid_request" ∧
    Code.http Code.IoError = 422 ∧
    Code.type_ Code.TooManyOpenFiles = "invalid_request" ∧
    Code.http Code.TooManyOpenFiles = 422 ∧
    Code.type_ Code.NoSpaceLeftOnDevice = "invalid_request" ∧
    Code.http Code.NoSpaceLeftOnDevice = 422 := by
  decide

end Meilisearch
